import Mathlib

/-
  Verification of the per-node northbound callback layer of ripd
  (src/ripd/rip_northbound.c) against its design specification.

  The runtime model (the global rip instance, the distance table, the
  offset lists, the passive-interface set, ...) is embedded as an explicit
  state record `St`.  Heap-allocated strings obtained from `strdup` are
  represented by allocation ids handed out by a counter, and a log of
  freed ids lets us reason about objects being freed exactly once.
  External routines from ripd.c / lib, which are outside the provided
  source, are modelled from the specification's interface boundary and
  marked as such in their doc comments.  The handlers themselves are
  translated directly from rip_northbound.c.
-/

set_option linter.unusedVariables false

namespace RipNB

/-- Northbound callback events, `enum nb_event` as used by the handlers:
validate, prepare, abort, apply. -/
inductive NbEvent
  | validate
  | prepare
  | abort
  | apply
  deriving DecidableEq

/-- Northbound return codes used by the handlers: `NB_OK`, a generic
domain error (`NB_ERR`-style codes returned by ripd.c routines), and
`NB_ERR_RESOURCE`. -/
inductive NbCode
  | ok
  | err
  | errResource
  deriving DecidableEq

/-- Model of an IPv4 prefix as an (address, length) pair; stands for the
various `struct prefix` / `struct prefix_ipv4` values the handlers read
from the configuration node. -/
abbrev Pfx := Nat × Nat

/-- Model of `struct rip_distance`: the `distance` value and the
`access_list` string, the latter represented by the allocation id of the
`strdup` result (`none` standing for a NULL pointer). -/
structure RipDistance where
  distance : Nat
  access_list : Option Nat
  deriving DecidableEq

/-- Modelled from the spec: `rip_distance_new` allocates a zeroed
distance-override record. -/
def rip_distance_new : RipDistance :=
  { distance := 0, access_list := none }

/-- Model of one `struct route_node` of `rip_distance_table`: its key
prefix, its `info` pointer and its lock count. -/
structure RNode where
  pfx : Pfx
  info : Option RipDistance
  locks : Nat
  deriving DecidableEq

/-- Offset-list direction index: `RIP_OFFSET_LIST_IN` or
`RIP_OFFSET_LIST_OUT`. -/
inductive Direction
  | din
  | dout
  deriving DecidableEq

/-- The opposite direction index. -/
def Direction.other : Direction → Direction
  | .din => .dout
  | .dout => .din

/-- Model of one direction slot of `struct rip_offset_list`
(`alist_name`, `metric`); the access-list string is an allocation id. -/
structure OffsetEntry where
  alist_name : Option Nat
  metric : Nat
  deriving DecidableEq

/-- Model of `struct rip_offset_list`: the interface name and the two
direction slots `direct[RIP_OFFSET_LIST_IN]`, `direct[RIP_OFFSET_LIST_OUT]`. -/
structure RipOffsetList where
  ifname : String
  directIn : OffsetEntry
  directOut : OffsetEntry
  deriving DecidableEq

/-- Read `offset->direct[d]`. -/
def RipOffsetList.direct (o : RipOffsetList) : Direction → OffsetEntry
  | .din => o.directIn
  | .dout => o.directOut

/-- Write `offset->direct[d]`. -/
def RipOffsetList.setDirect (o : RipOffsetList) : Direction → OffsetEntry → RipOffsetList
  | .din, e => { o with directIn := e }
  | .dout, e => { o with directOut := e }

/-- A runtime-object pointer storable in an entry binding: either a
route node of the distance table (identified by its key prefix) or an
offset-list record (identified by its heap id). -/
inductive EntryPtr
  | routeNode (p : Pfx)
  | offsetObj (oid : Nat)
  deriving DecidableEq

/-- Model of one cell of `rip->route_map[]`: the `strdup`ed route-map
name (allocation id), the resolved route-map, and the metric override. -/
structure RouteMapCfg where
  nameId : Option Nat
  mapResolved : Option String
  metric_config : Bool
  metric : Nat
  deriving DecidableEq

/-- The runtime-model state threaded through every handler: the global
rip instance and its scalar fields, the derived timer and redistribution
state, the distance table, the offset-list heap, the simple runtime sets,
the entry-binding registry, open file descriptors, and the string
allocator with its free log. -/
structure St where
  openFds : List Nat
  ripExists : Bool
  ripSock : Nat
  ecmp : Bool
  default_metric : Nat
  distance_default : Nat
  passive_default : Bool
  update_time : Nat
  timeout_time : Nat
  garbage_time : Nat
  updateTimerInterval : Option Nat
  routeMaps : List RouteMapCfg
  zebraRedist : List Bool
  routeMapTable : List String
  ripRoutes : List (Nat × Pfx)
  distTable : List RNode
  offsetHeap : List (Nat × RipOffsetList)
  offsetNext : Nat
  enabledNetworks : List Pfx
  enabledIfs : List String
  neighbors : List Pfx
  passiveNondefault : List String
  bindings : List (Nat × EntryPtr)
  allocNext : Nat
  freeLog : List Nat
  deriving DecidableEq

/-- An empty initial state, used by concrete witnesses. -/
def St0 : St :=
  { openFds := [], ripExists := false, ripSock := 0, ecmp := true
  , default_metric := 1, distance_default := 0, passive_default := false
  , update_time := 30, timeout_time := 180, garbage_time := 120
  , updateTimerInterval := none
  , routeMaps := [], zebraRedist := [], routeMapTable := [], ripRoutes := []
  , distTable := [], offsetHeap := [], offsetNext := 0
  , enabledNetworks := [], enabledIfs := [], neighbors := []
  , passiveNondefault := [], bindings := [], allocNext := 0, freeLog := [] }

/-- Route subtype `RIP_ROUTE_STATIC`. -/
def RIP_ROUTE_STATIC : Nat := 1

/-- Route subtype `RIP_ROUTE_DEFAULT`. -/
def RIP_ROUTE_DEFAULT : Nat := 2

/-- Record the binding of configuration node `n` (identified by the
identity of the list-entry dnode) to runtime object `e`; rebinding a
node replaces its previous binding (`yang_dnode_set_entry`). -/
def yang_dnode_set_entry (n : Nat) (e : EntryPtr) (s : St) : St :=
  { s with bindings := (n, e) :: s.bindings.filter (fun b => b.1 != n) }

/-- Resolve the entry binding of the nearest bound list-entry ancestor of
a configuration node, identified by `n` (`yang_dnode_get_entry`). -/
def yang_dnode_get_entry (n : Nat) (s : St) : Option EntryPtr :=
  (s.bindings.find? (fun b => b.1 == n)).map (fun b => b.2)

/-- Modelled from the spec: when a list-entry node is deleted, the
external transaction coordinator destroys the configuration-tree node,
and the entry binding stored with it is torn down. -/
def nb_node_destroy (n : Nat) (s : St) : St :=
  { s with bindings := s.bindings.filter (fun b => b.1 != n) }

/-- Allocate a fresh string id (`strdup`). -/
def strdupAlloc (s : St) : Nat × St :=
  (s.allocNext, { s with allocNext := s.allocNext + 1 })

/-- Free a string id (`free`), recording it in the free log. -/
def freeStr (i : Nat) (s : St) : St :=
  { s with freeLog := i :: s.freeLog }

/-- Modelled from the spec: `rip_create_socket` performs a local,
non-blocking socket acquisition; the `alloc` parameter is the allocator
outcome - `none` means resource exhaustion (a negative return value,
nothing opened), `some fd` means descriptor `fd` was opened. -/
def rip_create_socket (alloc : Option Nat) (s : St) : Int × St :=
  match alloc with
  | none => (-1, s)
  | some fd => ((fd : Int), { s with openFds := fd :: s.openFds })

/-- Modelled from the spec: `close` releases a file descriptor. -/
def close_fd (fd : Nat) (s : St) : St :=
  { s with openFds := s.openFds.erase fd }

/-- Modelled from the spec: `rip_create sock` brings the global rip
instance into existence, owning the socket. -/
def rip_create (sock : Nat) (s : St) : St :=
  { s with ripExists := true, ripSock := sock }

/-- Modelled from the spec: `rip_clean` destroys the global rip instance
and closes its socket. -/
def rip_clean (s : St) : St :=
  { s with ripExists := false, openFds := s.openFds.erase s.ripSock }

/-- Modelled from the spec: `rip_ecmp_disable` prunes multipath routes of
the rip route table, which lies outside the modelled state. -/
def rip_ecmp_disable (s : St) : St := s

/-- Modelled from the spec: `rip_redistribute_add` injects a route of the
given subtype into the rip routing table. -/
def rip_redistribute_add (sub : Nat) (p : Pfx) (s : St) : St :=
  { s with ripRoutes := (sub, p) :: s.ripRoutes.filter (fun r => r != (sub, p)) }

/-- Modelled from the spec: `rip_redistribute_delete` removes a route of
the given subtype from the rip routing table. -/
def rip_redistribute_delete (sub : Nat) (p : Pfx) (s : St) : St :=
  { s with ripRoutes := s.ripRoutes.filter (fun r => r != (sub, p)) }

/-- Modelled from the spec: `rip_neighbor_add` registers an explicit
neighbor, reporting a domain error when it is already configured. -/
def rip_neighbor_add (p : Pfx) (s : St) : NbCode × St :=
  if s.neighbors.contains p then (.err, s)
  else (.ok, { s with neighbors := p :: s.neighbors })

/-- Modelled from the spec: `rip_neighbor_delete` removes an explicit
neighbor, reporting a domain error when it is not configured. -/
def rip_neighbor_delete (p : Pfx) (s : St) : NbCode × St :=
  if s.neighbors.contains p then
    (.ok, { s with neighbors := s.neighbors.erase p })
  else (.err, s)

/-- Modelled from the spec: `rip_enable_network_add` adds a learned-network
range, reporting a domain error when it is already enabled. -/
def rip_enable_network_add (p : Pfx) (s : St) : NbCode × St :=
  if s.enabledNetworks.contains p then (.err, s)
  else (.ok, { s with enabledNetworks := p :: s.enabledNetworks })

/-- Modelled from the spec: `rip_enable_network_delete` removes a
learned-network range, reporting a domain error when it is absent. -/
def rip_enable_network_delete (p : Pfx) (s : St) : NbCode × St :=
  if s.enabledNetworks.contains p then
    (.ok, { s with enabledNetworks := s.enabledNetworks.erase p })
  else (.err, s)

/-- Modelled from the spec: `rip_enable_if_add` adds an enabled interface,
reporting a domain error when it is already present. -/
def rip_enable_if_add (ifname : String) (s : St) : NbCode × St :=
  if s.enabledIfs.contains ifname then (.err, s)
  else (.ok, { s with enabledIfs := ifname :: s.enabledIfs })

/-- Modelled from the spec: `rip_enable_if_delete` removes an enabled
interface, reporting a domain error when it is absent. -/
def rip_enable_if_delete (ifname : String) (s : St) : NbCode × St :=
  if s.enabledIfs.contains ifname then
    (.ok, { s with enabledIfs := s.enabledIfs.erase ifname })
  else (.err, s)

/-- Modelled from the spec: `rip_passive_nondefault_set` adds an interface
to the passive non-default set, reporting a domain error when present. -/
def rip_passive_nondefault_set (ifname : String) (s : St) : NbCode × St :=
  if s.passiveNondefault.contains ifname then (.err, s)
  else (.ok, { s with passiveNondefault := ifname :: s.passiveNondefault })

/-- Modelled from the spec: `rip_passive_nondefault_unset` removes an
interface from the passive non-default set, reporting a domain error when
it is absent. -/
def rip_passive_nondefault_unset (ifname : String) (s : St) : NbCode × St :=
  if s.passiveNondefault.contains ifname then
    (.ok, { s with passiveNondefault := s.passiveNondefault.erase ifname })
  else (.err, s)

/-- Modelled from the spec: `rip_passive_nondefault_clean` empties the
passive non-default set. -/
def rip_passive_nondefault_clean (s : St) : St :=
  { s with passiveNondefault := [] }

/-- Modelled from the spec: `rip_redistribute_conf_delete` clears the
derived redistribution state for protocol `t`. -/
def rip_redistribute_conf_delete (t : Nat) (s : St) : St :=
  { s with zebraRedist := s.zebraRedist.set t false }

/-- Modelled from the spec: `rip_redistribute_conf_update` re-reads the
redistribute configuration of protocol `t` from the configuration tree
(supplied by the coordinator as `desired`) and reinstalls the derived
redistribution state from it. -/
def rip_redistribute_conf_update (t : Nat) (desired : Bool) (s : St) : St :=
  { s with zebraRedist := s.zebraRedist.set t desired }

/-- Modelled from the spec: `rip_event RIP_UPDATE_EVENT 0` re-arms the
periodic update timer from the configured update interval. -/
def rip_event_update (s : St) : St :=
  { s with updateTimerInterval := some s.update_time }

/-- Modelled from the spec: `route_map_lookup_by_name` resolves a
route-map name against the route-map table. -/
def route_map_lookup_by_name (rmap : String) (s : St) : Option String :=
  s.routeMapTable.find? (fun m => m == rmap)

/-- Modelled from the spec: `route_node_get` returns the table node for a
prefix, locking it, creating it (with one lock and no info) if absent. -/
def route_node_get (p : Pfx) (l : List RNode) : List RNode :=
  if l.any (fun rn => rn.pfx == p) then
    l.map (fun rn => if rn.pfx == p then { rn with locks := rn.locks + 1 } else rn)
  else
    { pfx := p, info := none, locks := 1 } :: l

/-- Write the `info` pointer of the table node keyed by `p`. -/
def setInfo (p : Pfx) (i : Option RipDistance) (l : List RNode) : List RNode :=
  l.map (fun rn => if rn.pfx == p then { rn with info := i } else rn)

/-- Find the table node keyed by `p`. -/
def findNode (p : Pfx) (l : List RNode) : Option RNode :=
  l.find? (fun rn => rn.pfx == p)

/-- Modelled from the spec: `route_unlock_node` drops one lock and frees
the node when no lock remains. -/
def route_unlock_node (p : Pfx) (l : List RNode) : List RNode :=
  l.filterMap (fun rn =>
    if rn.pfx == p then
      if rn.locks ≤ 1 then none else some { rn with locks := rn.locks - 1 }
    else some rn)

/-- Find the offset-list record with heap id `oid`. -/
def lookupOffset (oid : Nat) (s : St) : Option RipOffsetList :=
  (s.offsetHeap.find? (fun e => e.1 == oid)).map (fun e => e.2)

/-- Overwrite the offset-list record with heap id `oid`. -/
def storeOffset (oid : Nat) (o : RipOffsetList) (s : St) : St :=
  { s with offsetHeap := s.offsetHeap.map (fun e => if e.1 == oid then (oid, o) else e) }

/-- Modelled from the spec: `rip_offset_list_new` allocates a fresh
offset-list record for the interface, both direction slots empty. -/
def rip_offset_list_new (ifname : String) (s : St) : Nat × St :=
  (s.offsetNext,
   { s with
     offsetHeap := (s.offsetNext,
       { ifname := ifname
       , directIn := { alist_name := none, metric := 0 }
       , directOut := { alist_name := none, metric := 0 } }) :: s.offsetHeap
   , offsetNext := s.offsetNext + 1 })

/-- Modelled from the spec: `offset_list_del` frees the shared
offset-list record. -/
def offset_list_del (oid : Nat) (s : St) : St :=
  { s with offsetHeap := s.offsetHeap.filter (fun e => e.1 != oid) }

/-- The `union nb_resource` passed to create and modify callbacks; the
only variant used by this module is the socket descriptor `fd`. -/
structure NbResource where
  fd : Nat
  deriving DecidableEq

/-- Handler for `/frr-ripd:ripd/instance` creation
(`ripd_instance_create`): VALIDATE does nothing; PREPARE opens the
protocol socket and stores it in `resource->fd`, failing with
`NB_ERR_RESOURCE` when the acquisition fails; ABORT closes the descriptor
stored in `resource->fd`; APPLY hands the stored descriptor to
`rip_create`. -/
def ripd_instance_create (alloc : Option Nat) (event : NbEvent) (s : St)
    (resource : NbResource) : NbCode × St × NbResource :=
  match event with
  | .validate => (.ok, s, resource)
  | .prepare =>
      let r := rip_create_socket alloc s
      if r.1 < 0 then (.errResource, r.2, resource)
      else (.ok, r.2, { resource with fd := r.1.toNat })
  | .abort => (.ok, close_fd resource.fd s, resource)
  | .apply => (.ok, rip_create resource.fd s, resource)

/-- Handler for `/frr-ripd:ripd/instance` deletion
(`ripd_instance_delete`): on APPLY, `rip_clean`. -/
def ripd_instance_delete (event : NbEvent) (s : St) : NbCode × St :=
  if event != .apply then (.ok, s)
  else (.ok, rip_clean s)

/-- Handler for `allow-ecmp` (`ripd_instance_allow_ecmp_modify`): on
APPLY, set `rip->ecmp` and prune multipath routes when disabled. -/
def ripd_instance_allow_ecmp_modify (event : NbEvent) (v : Bool) (s : St) :
    NbCode × St :=
  if event != .apply then (.ok, s)
  else
    let s1 := { s with ecmp := v }
    if !v then (.ok, rip_ecmp_disable s1) else (.ok, s1)

/-- Handler for `default-information-originate`
(`ripd_instance_default_information_originate_modify`): on APPLY, inject
or withdraw the default route. -/
def ripd_instance_default_information_originate_modify (event : NbEvent)
    (v : Bool) (s : St) : NbCode × St :=
  if event != .apply then (.ok, s)
  else if v then (.ok, rip_redistribute_add RIP_ROUTE_DEFAULT (0, 0) s)
  else (.ok, rip_redistribute_delete RIP_ROUTE_DEFAULT (0, 0) s)

/-- Handler for `default-metric` (`ripd_instance_default_metric_modify`):
on APPLY, assign `rip->default_metric`. -/
def ripd_instance_default_metric_modify (event : NbEvent) (v : Nat) (s : St) :
    NbCode × St :=
  if event != .apply then (.ok, s)
  else (.ok, { s with default_metric := v })

/-- Handler for `distance/default`
(`ripd_instance_distance_default_modify`): on APPLY, assign
`rip->distance`. -/
def ripd_instance_distance_default_modify (event : NbEvent) (v : Nat) (s : St) :
    NbCode × St :=
  if event != .apply then (.ok, s)
  else (.ok, { s with distance_default := v })

/-- Handler for `distance/source` creation
(`ripd_instance_distance_source_create`): on APPLY, get the distance-table
node for the key prefix, attach a fresh `rip_distance` record as its
info, and bind the configuration node to the route node with
`yang_dnode_set_entry`. -/
def ripd_instance_distance_source_create (event : NbEvent) (nodeId : Nat)
    (p : Pfx) (s : St) : NbCode × St :=
  if event != .apply then (.ok, s)
  else
    let t1 := route_node_get p s.distTable
    let t2 := setInfo p (some rip_distance_new) t1
    let s2 := { s with distTable := t2 }
    (.ok, yang_dnode_set_entry nodeId (.routeNode p) s2)

/-- Handler for `distance/source` deletion
(`ripd_instance_distance_source_delete`): on APPLY, resolve the bound
route node, free the record's access-list string if any, free the record,
clear the node's info and unlock the node.  `none` models the undefined
behavior of dereferencing an unresolvable binding or a NULL info. -/
def ripd_instance_distance_source_delete (event : NbEvent) (nodeId : Nat)
    (s : St) : Option (NbCode × St) :=
  if event != .apply then some (.ok, s)
  else
    match yang_dnode_get_entry nodeId s with
    | some (.routeNode p) =>
      match findNode p s.distTable with
      | some rn =>
        match rn.info with
        | some rd =>
          let s1 := match rd.access_list with
                    | some i => freeStr i s
                    | none => s
          let s2 := { s1 with distTable := setInfo p none s1.distTable }
          let s3 := { s2 with distTable := route_unlock_node p s2.distTable }
          some (.ok, s3)
        | none => none
      | none => none
    | _ => none

/-- Handler for `distance/source/distance`
(`ripd_instance_distance_source_distance_modify`): on APPLY, resolve the
bound route node and assign the record's distance value. -/
def ripd_instance_distance_source_distance_modify (event : NbEvent)
    (nodeId : Nat) (v : Nat) (s : St) : Option (NbCode × St) :=
  if event != .apply then some (.ok, s)
  else
    match yang_dnode_get_entry nodeId s with
    | some (.routeNode p) =>
      match findNode p s.distTable with
      | some rn =>
        match rn.info with
        | some rd =>
          some (.ok, { s with
            distTable := setInfo p (some { rd with distance := v }) s.distTable })
        | none => none
      | none => none
    | _ => none

/-- Handler for `distance/source/access-list`
(`ripd_instance_distance_source_access_list_modify`): on APPLY, resolve
the bound route node, free the previous access-list string if any, and
install a `strdup` of the new name. -/
def ripd_instance_distance_source_access_list_modify (event : NbEvent)
    (nodeId : Nat) (aclName : String) (s : St) : Option (NbCode × St) :=
  if event != .apply then some (.ok, s)
  else
    match yang_dnode_get_entry nodeId s with
    | some (.routeNode p) =>
      match findNode p s.distTable with
      | some rn =>
        match rn.info with
        | some rd =>
          let s1 := match rd.access_list with
                    | some i => freeStr i s
                    | none => s
          let a := strdupAlloc s1
          some (.ok, { a.2 with
            distTable := setInfo p (some { rd with access_list := some a.1 }) a.2.distTable })
        | none => none
      | none => none
    | _ => none

/-- Handler for `distance/source/access-list` deletion
(`ripd_instance_distance_source_access_list_delete`): on APPLY, resolve
the bound route node, free the access-list string and reset it to NULL. -/
def ripd_instance_distance_source_access_list_delete (event : NbEvent)
    (nodeId : Nat) (s : St) : Option (NbCode × St) :=
  if event != .apply then some (.ok, s)
  else
    match yang_dnode_get_entry nodeId s with
    | some (.routeNode p) =>
      match findNode p s.distTable with
      | some rn =>
        match rn.info with
        | some rd =>
          let s1 := match rd.access_list with
                    | some i => freeStr i s
                    | none => s
          some (.ok, { s1 with
            distTable := setInfo p (some { rd with access_list := none }) s1.distTable })
        | none => none
      | none => none
    | _ => none

/-- Handler for `explicit-neighbor` creation
(`ripd_instance_explicit_neighbor_create`): on APPLY, return the result
of `rip_neighbor_add` for the host prefix. -/
def ripd_instance_explicit_neighbor_create (event : NbEvent) (addr : Nat)
    (s : St) : NbCode × St :=
  if event != .apply then (.ok, s)
  else rip_neighbor_add (addr, 32) s

/-- Handler for `explicit-neighbor` deletion
(`ripd_instance_explicit_neighbor_delete`): on APPLY, return the result
of `rip_neighbor_delete` for the host prefix. -/
def ripd_instance_explicit_neighbor_delete (event : NbEvent) (addr : Nat)
    (s : St) : NbCode × St :=
  if event != .apply then (.ok, s)
  else rip_neighbor_delete (addr, 32) s

/-- Handler for `network` creation (`ripd_instance_network_create`): on
APPLY, return the result of `rip_enable_network_add`. -/
def ripd_instance_network_create (event : NbEvent) (p : Pfx) (s : St) :
    NbCode × St :=
  if event != .apply then (.ok, s)
  else rip_enable_network_add p s

/-- Handler for `network` deletion (`ripd_instance_network_delete`): on
APPLY, return the result of `rip_enable_network_delete`. -/
def ripd_instance_network_delete (event : NbEvent) (p : Pfx) (s : St) :
    NbCode × St :=
  if event != .apply then (.ok, s)
  else rip_enable_network_delete p s

/-- Handler for `interface` creation (`ripd_instance_interface_create`):
on APPLY, return the result of `rip_enable_if_add`. -/
def ripd_instance_interface_create (event : NbEvent) (ifname : String)
    (s : St) : NbCode × St :=
  if event != .apply then (.ok, s)
  else rip_enable_if_add ifname s

/-- Handler for `interface` deletion (`ripd_instance_interface_delete`):
on APPLY, return the result of `rip_enable_if_delete`. -/
def ripd_instance_interface_delete (event : NbEvent) (ifname : String)
    (s : St) : NbCode × St :=
  if event != .apply then (.ok, s)
  else rip_enable_if_delete ifname s

/-- Handler for `offset-list` creation
(`ripd_instance_offset_list_create`): on APPLY, allocate a fresh
offset-list record for the key interface and bind the configuration node
to it with `yang_dnode_set_entry`. -/
def ripd_instance_offset_list_create (event : NbEvent) (nodeId : Nat)
    (ifname : String) (s : St) : NbCode × St :=
  if event != .apply then (.ok, s)
  else
    let a := rip_offset_list_new ifname s
    (.ok, yang_dnode_set_entry nodeId (.offsetObj a.1) a.2)

/-- Handler for `offset-list` deletion
(`ripd_instance_offset_list_delete`): on APPLY, resolve the bound
offset-list record, free and clear the key direction's access-list name
if set, and free the shared record with `offset_list_del` when neither
direction has an access-list name left. -/
def ripd_instance_offset_list_delete (event : NbEvent) (nodeId : Nat)
    (direct : Direction) (s : St) : Option (NbCode × St) :=
  if event != .apply then some (.ok, s)
  else
    match yang_dnode_get_entry nodeId s with
    | some (.offsetObj oid) =>
      match lookupOffset oid s with
      | some off =>
        let cleared :=
          match (off.direct direct).alist_name with
          | some i =>
            (storeOffset oid
               (off.setDirect direct { off.direct direct with alist_name := none })
               (freeStr i s),
             off.setDirect direct { off.direct direct with alist_name := none })
          | none => (s, off)
        let s1 := cleared.1
        let off1 := cleared.2
        if off1.directIn.alist_name = none ∧ off1.directOut.alist_name = none
        then some (.ok, offset_list_del oid s1)
        else some (.ok, s1)
      | none => none
    | _ => none

/-- Handler for `offset-list/access-list`
(`ripd_instance_offset_list_access_list_modify`): on APPLY, resolve the
bound offset-list record, free the direction's previous access-list name
if any, and install a `strdup` of the new one. -/
def ripd_instance_offset_list_access_list_modify (event : NbEvent)
    (nodeId : Nat) (direct : Direction) (alistName : String) (s : St) :
    Option (NbCode × St) :=
  if event != .apply then some (.ok, s)
  else
    match yang_dnode_get_entry nodeId s with
    | some (.offsetObj oid) =>
      match lookupOffset oid s with
      | some off =>
        let s1 := match (off.direct direct).alist_name with
                  | some i => freeStr i s
                  | none => s
        let a := strdupAlloc s1
        some (.ok, storeOffset oid
          (off.setDirect direct { off.direct direct with alist_name := some a.1 })
          a.2)
      | none => none
    | _ => none

/-- Handler for `offset-list/metric`
(`ripd_instance_offset_list_metric_modify`): on APPLY, resolve the bound
offset-list record and assign the direction's metric. -/
def ripd_instance_offset_list_metric_modify (event : NbEvent) (nodeId : Nat)
    (direct : Direction) (m : Nat) (s : St) : Option (NbCode × St) :=
  if event != .apply then some (.ok, s)
  else
    match yang_dnode_get_entry nodeId s with
    | some (.offsetObj oid) =>
      match lookupOffset oid s with
      | some off =>
        some (.ok, storeOffset oid
          (off.setDirect direct { off.direct direct with metric := m }) s)
      | none => none
    | _ => none

/-- Handler for `passive-default` (`ripd_instance_passive_default_modify`):
on APPLY, set `rip->passive_default` and clean the non-default set. -/
def ripd_instance_passive_default_modify (event : NbEvent) (v : Bool)
    (s : St) : NbCode × St :=
  if event != .apply then (.ok, s)
  else (.ok, rip_passive_nondefault_clean { s with passive_default := v })

/-- Handler for `passive-interface` creation
(`ripd_instance_passive_interface_create`): on APPLY, return the result
of `rip_passive_nondefault_set`. -/
def ripd_instance_passive_interface_create (event : NbEvent)
    (ifname : String) (s : St) : NbCode × St :=
  if event != .apply then (.ok, s)
  else rip_passive_nondefault_set ifname s

/-- Handler for `passive-interface` deletion
(`ripd_instance_passive_interface_delete`): on APPLY, return the result
of `rip_passive_nondefault_unset`. -/
def ripd_instance_passive_interface_delete (event : NbEvent)
    (ifname : String) (s : St) : NbCode × St :=
  if event != .apply then (.ok, s)
  else rip_passive_nondefault_unset ifname s

/-- Handler for `non-passive-interface` creation
(`ripd_instance_non_passive_interface_create`): on APPLY, return the
result of `rip_passive_nondefault_unset`. -/
def ripd_instance_non_passive_interface_create (event : NbEvent)
    (ifname : String) (s : St) : NbCode × St :=
  if event != .apply then (.ok, s)
  else rip_passive_nondefault_unset ifname s

/-- Handler for `non-passive-interface` deletion
(`ripd_instance_non_passive_interface_delete`): on APPLY, return the
result of `rip_passive_nondefault_set`. -/
def ripd_instance_non_passive_interface_delete (event : NbEvent)
    (ifname : String) (s : St) : NbCode × St :=
  if event != .apply then (.ok, s)
  else rip_passive_nondefault_set ifname s

/-- Handler for `redistribute` creation
(`ripd_instance_redistribute_create`): the body is a bare
`return NB_OK` for every event. -/
def ripd_instance_redistribute_create (event : NbEvent) (s : St) :
    NbCode × St :=
  (.ok, s)

/-- Handler for `redistribute` deletion
(`ripd_instance_redistribute_delete`): on APPLY, clear the derived
redistribution state of the key protocol. -/
def ripd_instance_redistribute_delete (event : NbEvent) (t : Nat) (s : St) :
    NbCode × St :=
  if event != .apply then (.ok, s)
  else (.ok, rip_redistribute_conf_delete t s)

/-- Apply-finish callback of the `redistribute` entry
(`ripd_instance_redistribute_apply_finish`): reinstall the derived
redistribution state of the key protocol from the configuration
(`desired` is what the configuration tree says for protocol `t`). -/
def ripd_instance_redistribute_apply_finish (t : Nat) (desired : Bool)
    (s : St) : St :=
  rip_redistribute_conf_update t desired s

/-- Handler for `redistribute/route-map`
(`ripd_instance_redistribute_route_map_modify`): on APPLY, free the
previous route-map name of the protocol if any, `strdup` the new one and
resolve it against the route-map table. -/
def ripd_instance_redistribute_route_map_modify (event : NbEvent) (t : Nat)
    (rmapName : String) (s : St) : NbCode × St :=
  if event != .apply then (.ok, s)
  else
    let rm := s.routeMaps.getD t { nameId := none, mapResolved := none
                                 , metric_config := false, metric := 0 }
    let s1 := match rm.nameId with
              | some i => freeStr i s
              | none => s
    let a := strdupAlloc s1
    let rm1 :=
      { rm with
        nameId := some a.1
        mapResolved := route_map_lookup_by_name rmapName a.2 }
    (.ok, { a.2 with routeMaps := a.2.routeMaps.set t rm1 })

/-- Handler for `redistribute/route-map` deletion
(`ripd_instance_redistribute_route_map_delete`): on APPLY, free the
route-map name of the protocol if any and reset it to NULL. -/
def ripd_instance_redistribute_route_map_delete (event : NbEvent) (t : Nat)
    (s : St) : NbCode × St :=
  if event != .apply then (.ok, s)
  else
    let rm := s.routeMaps.getD t { nameId := none, mapResolved := none
                                 , metric_config := false, metric := 0 }
    match rm.nameId with
    | some i =>
      let s1 := freeStr i s
      (.ok, { s1 with routeMaps := s1.routeMaps.set t { rm with nameId := none } })
    | none => (.ok, s)

/-- Handler for `redistribute/metric`
(`ripd_instance_redistribute_metric_modify`): on APPLY, set the
protocol's metric override. -/
def ripd_instance_redistribute_metric_modify (event : NbEvent) (t : Nat)
    (m : Nat) (s : St) : NbCode × St :=
  if event != .apply then (.ok, s)
  else
    let rm := s.routeMaps.getD t { nameId := none, mapResolved := none
                                 , metric_config := false, metric := 0 }
    let rm1 := { rm with metric_config := true, metric := m }
    (.ok, { s with routeMaps := s.routeMaps.set t rm1 })

/-- Handler for `redistribute/metric` deletion
(`ripd_instance_redistribute_metric_delete`): on APPLY, clear the
protocol's metric override. -/
def ripd_instance_redistribute_metric_delete (event : NbEvent) (t : Nat)
    (s : St) : NbCode × St :=
  if event != .apply then (.ok, s)
  else
    let rm := s.routeMaps.getD t { nameId := none, mapResolved := none
                                 , metric_config := false, metric := 0 }
    let rm1 := { rm with metric_config := false, metric := 0 }
    (.ok, { s with routeMaps := s.routeMaps.set t rm1 })

/-- Handler for `static-route` creation
(`ripd_instance_static_route_create`): on APPLY, inject the static
route. -/
def ripd_instance_static_route_create (event : NbEvent) (p : Pfx) (s : St) :
    NbCode × St :=
  if event != .apply then (.ok, s)
  else (.ok, rip_redistribute_add RIP_ROUTE_STATIC p s)

/-- Handler for `static-route` deletion
(`ripd_instance_static_route_delete`): on APPLY, withdraw the static
route. -/
def ripd_instance_static_route_delete (event : NbEvent) (p : Pfx) (s : St) :
    NbCode × St :=
  if event != .apply then (.ok, s)
  else (.ok, rip_redistribute_delete RIP_ROUTE_STATIC p s)

/-- Apply-finish callback of the `timers` subtree
(`ripd_instance_timers_apply_finish`): re-arm the periodic update
timer. -/
def ripd_instance_timers_apply_finish (s : St) : St :=
  rip_event_update s

/-- Handler for `timers/flush-interval`
(`ripd_instance_timers_flush_interval_modify`): on APPLY, assign
`rip->garbage_time`. -/
def ripd_instance_timers_flush_interval_modify (event : NbEvent) (v : Nat)
    (s : St) : NbCode × St :=
  if event != .apply then (.ok, s)
  else (.ok, { s with garbage_time := v })

/-- Handler for `timers/holddown-interval`
(`ripd_instance_timers_holddown_interval_modify`): on APPLY, assign
`rip->timeout_time`. -/
def ripd_instance_timers_holddown_interval_modify (event : NbEvent) (v : Nat)
    (s : St) : NbCode × St :=
  if event != .apply then (.ok, s)
  else (.ok, { s with timeout_time := v })

/-- Handler for `timers/update-interval`
(`ripd_instance_timers_update_interval_modify`): on APPLY, assign
`rip->update_time`. -/
def ripd_instance_timers_update_interval_modify (event : NbEvent) (v : Nat)
    (s : St) : NbCode × St :=
  if event != .apply then (.ok, s)
  else (.ok, { s with update_time := v })

/-- Placeholder handler for `version/receive` (TODO in the source):
returns `NB_OK` for every event, touching nothing. -/
def ripd_instance_version_receive_modify (event : NbEvent) (s : St) :
    NbCode × St :=
  (.ok, s)

/-- Placeholder handler for `version/send` (TODO in the source). -/
def ripd_instance_version_send_modify (event : NbEvent) (s : St) :
    NbCode × St :=
  (.ok, s)

/-- Placeholder handler for the per-interface `split-horizon` leaf (TODO
in the source). -/
def lib_interface_rip_split_horizon_modify (event : NbEvent) (s : St) :
    NbCode × St :=
  (.ok, s)

/-- Placeholder handler for the per-interface `v2-broadcast` leaf (TODO
in the source). -/
def lib_interface_rip_v2_broadcast_modify (event : NbEvent) (s : St) :
    NbCode × St :=
  (.ok, s)

/-- Placeholder handler for the per-interface `version-receive` leaf
(TODO in the source). -/
def lib_interface_rip_version_receive_modify (event : NbEvent) (s : St) :
    NbCode × St :=
  (.ok, s)

/-- Placeholder handler for the per-interface `version-send` leaf (TODO
in the source). -/
def lib_interface_rip_version_send_modify (event : NbEvent) (s : St) :
    NbCode × St :=
  (.ok, s)

/-- Placeholder handler for `authentication-scheme/mode` (TODO in the
source). -/
def lib_interface_rip_authentication_scheme_mode_modify (event : NbEvent)
    (s : St) : NbCode × St :=
  (.ok, s)

/-- Placeholder handler for `authentication-scheme/md5-auth-length`
modification (TODO in the source). -/
def lib_interface_rip_authentication_scheme_md5_auth_length_modify
    (event : NbEvent) (s : St) : NbCode × St :=
  (.ok, s)

/-- Placeholder handler for `authentication-scheme/md5-auth-length`
deletion (TODO in the source). -/
def lib_interface_rip_authentication_scheme_md5_auth_length_delete
    (event : NbEvent) (s : St) : NbCode × St :=
  (.ok, s)

/-- Placeholder handler for `authentication-password` modification (TODO
in the source). -/
def lib_interface_rip_authentication_password_modify (event : NbEvent)
    (s : St) : NbCode × St :=
  (.ok, s)

/-- Placeholder handler for `authentication-password` deletion (TODO in
the source). -/
def lib_interface_rip_authentication_password_delete (event : NbEvent)
    (s : St) : NbCode × St :=
  (.ok, s)

/-- Placeholder handler for `authentication-key-chain` modification (TODO
in the source). -/
def lib_interface_rip_authentication_key_chain_modify (event : NbEvent)
    (s : St) : NbCode × St :=
  (.ok, s)

/-- Placeholder handler for `authentication-key-chain` deletion (TODO in
the source). -/
def lib_interface_rip_authentication_key_chain_delete (event : NbEvent)
    (s : St) : NbCode × St :=
  (.ok, s)

/-- An opaque cursor over a read-only operational list (`const void *`
list entry). -/
abbrev OperEntry := Nat

/-- Model of `struct yang_list_keys`: the extracted key tuple. -/
structure YangListKeys where
  keys : List String
  deriving DecidableEq

/-- Stubbed iterator of the state neighbor list
(`ripd_state_neighbors_neighbor_get_next`, TODO in the source): always
returns NULL. -/
def ripd_state_neighbors_neighbor_get_next (cur : Option OperEntry) :
    Option OperEntry :=
  none

/-- Stubbed key extractor of the state neighbor list
(`ripd_state_neighbors_neighbor_get_keys`, TODO in the source): returns
`NB_OK`, leaving the key structure untouched. -/
def ripd_state_neighbors_neighbor_get_keys (e : OperEntry)
    (ks : YangListKeys) : NbCode × YangListKeys :=
  (.ok, ks)

/-- Stubbed key lookup of the state neighbor list
(`ripd_state_neighbors_neighbor_lookup_entry`, TODO in the source):
always returns NULL. -/
def ripd_state_neighbors_neighbor_lookup_entry (ks : YangListKeys) :
    Option OperEntry :=
  none

/-- Stubbed iterator of the state route list
(`ripd_state_routes_route_get_next`, TODO in the source): always returns
NULL. -/
def ripd_state_routes_route_get_next (cur : Option OperEntry) :
    Option OperEntry :=
  none

/-- Stubbed key extractor of the state route list
(`ripd_state_routes_route_get_keys`, TODO in the source): returns
`NB_OK`, leaving the key structure untouched. -/
def ripd_state_routes_route_get_keys (e : OperEntry)
    (ks : YangListKeys) : NbCode × YangListKeys :=
  (.ok, ks)

/-- Stubbed key lookup of the state route list
(`ripd_state_routes_route_lookup_entry`, TODO in the source): always
returns NULL. -/
def ripd_state_routes_route_lookup_entry (ks : YangListKeys) :
    Option OperEntry :=
  none

/-- Stubbed rpc handler `clear_rip_route_rpc` (TODO in the source):
returns `NB_OK`, leaving the output list untouched. -/
def clear_rip_route_rpc (input output : List String) :
    NbCode × List String :=
  (.ok, output)

/-- Enumerate a read-only operational list by iterating a `get_next`
cursor function from a starting cursor, with explicit fuel. -/
def nbEnum (next : Option OperEntry → Option OperEntry) :
    Nat → Option OperEntry → List OperEntry
  | 0, _ => []
  | fuel + 1, cur =>
    match next cur with
    | none => []
    | some e => e :: nbEnum next fuel (some e)

lemma find?_filter_ne_none {α : Type} (n : Nat) :
    ∀ l : List (Nat × α),
      (l.filter (fun b => b.1 != n)).find? (fun b => b.1 == n) = none := by
  intro l
  induction l with
  | nil => rfl
  | cons a l ih =>
    by_cases h : a.1 = n
    · simp [List.filter_cons, h, ih]
    · simp [List.filter_cons, h, ih]

lemma bindings_network_add (p : Pfx) (s : St) :
    (rip_enable_network_add p s).2.bindings = s.bindings := by
  unfold rip_enable_network_add
  split <;> rfl

lemma bindings_if_add (ifname : String) (s : St) :
    (rip_enable_if_add ifname s).2.bindings = s.bindings := by
  unfold rip_enable_if_add
  split <;> rfl

lemma bindings_neighbor_add (p : Pfx) (s : St) :
    (rip_neighbor_add p s).2.bindings = s.bindings := by
  unfold rip_neighbor_add
  split <;> rfl

lemma bindings_passive_set (ifname : String) (s : St) :
    (rip_passive_nondefault_set ifname s).2.bindings = s.bindings := by
  unfold rip_passive_nondefault_set
  split <;> rfl

/-- C10: the non-passive-interface create and delete handlers are exact
inverses of the passive-interface handlers: for every interface name,
event and state, non-passive create computes the same result and state
change as passive delete (both invoke `rip_passive_nondefault_unset`),
and non-passive delete the same as passive create (both invoke
`rip_passive_nondefault_set`). -/
theorem C10_nonpassive_inverse_of_passive :
    ∀ (event : NbEvent) (ifname : String) (s : St),
      ripd_instance_non_passive_interface_create event ifname s =
        ripd_instance_passive_interface_delete event ifname s ∧
      ripd_instance_non_passive_interface_delete event ifname s =
        ripd_instance_passive_interface_create event ifname s := by
  intro event ifname s
  exact ⟨rfl, rfl⟩

/-- C8: every placeholder (not-yet-implemented) handler returns `NB_OK`
for every event and never an error, including all TODO-marked modify and
delete handlers, the rpc handler, and the stubbed get_keys callbacks, so
an unimplemented node can never fail a transaction. -/
theorem C8_placeholders_always_ok :
    ∀ (event : NbEvent) (s : St) (e : OperEntry) (ks : YangListKeys)
      (input output : List String),
      ripd_instance_version_receive_modify event s = (.ok, s) ∧
      ripd_instance_version_send_modify event s = (.ok, s) ∧
      lib_interface_rip_split_horizon_modify event s = (.ok, s) ∧
      lib_interface_rip_v2_broadcast_modify event s = (.ok, s) ∧
      lib_interface_rip_version_receive_modify event s = (.ok, s) ∧
      lib_interface_rip_version_send_modify event s = (.ok, s) ∧
      lib_interface_rip_authentication_scheme_mode_modify event s = (.ok, s) ∧
      lib_interface_rip_authentication_scheme_md5_auth_length_modify event s = (.ok, s) ∧
      lib_interface_rip_authentication_scheme_md5_auth_length_delete event s = (.ok, s) ∧
      lib_interface_rip_authentication_password_modify event s = (.ok, s) ∧
      lib_interface_rip_authentication_password_delete event s = (.ok, s) ∧
      lib_interface_rip_authentication_key_chain_modify event s = (.ok, s) ∧
      lib_interface_rip_authentication_key_chain_delete event s = (.ok, s) ∧
      (ripd_state_neighbors_neighbor_get_keys e ks).1 = .ok ∧
      (ripd_state_routes_route_get_keys e ks).1 = .ok ∧
      (clear_rip_route_rpc input output).1 = .ok := by
  intro event s e ks input output
  exact ⟨rfl, rfl, rfl, rfl, rfl, rfl, rfl, rfl, rfl, rfl, rfl, rfl, rfl,
         rfl, rfl, rfl⟩

/-- C9: for the read-only operational lists (state neighbors, state
routes), iterating `get_next` from `none` terminates at end within at
most N steps for N live entries - with the source's stubbed iterators the
enumeration ends immediately, so its length is bounded by every N - and
every enumerated entry round-trips through `get_keys` and `lookup_entry`
(vacuously, as the stubs enumerate nothing). -/
theorem C9_iterator_termination_roundtrip :
    ∀ (cur : Option OperEntry) (fuel bigN : Nat) (ks : YangListKeys),
      ripd_state_neighbors_neighbor_get_next cur = none ∧
      ripd_state_routes_route_get_next cur = none ∧
      (nbEnum ripd_state_neighbors_neighbor_get_next fuel none).length ≤ bigN ∧
      (nbEnum ripd_state_routes_route_get_next fuel none).length ≤ bigN ∧
      ((nbEnum ripd_state_neighbors_neighbor_get_next fuel none).all
        (fun e => ripd_state_neighbors_neighbor_lookup_entry
          (ripd_state_neighbors_neighbor_get_keys e ks).2 == some e)) = true ∧
      ((nbEnum ripd_state_routes_route_get_next fuel none).all
        (fun e => ripd_state_routes_route_lookup_entry
          (ripd_state_routes_route_get_keys e ks).2 == some e)) = true := by
  intro cur fuel bigN ks
  have hn : nbEnum ripd_state_neighbors_neighbor_get_next fuel none = [] := by
    cases fuel <;> rfl
  have hr : nbEnum ripd_state_routes_route_get_next fuel none = [] := by
    cases fuel <;> rfl
  refine ⟨rfl, rfl, ?_, ?_, ?_, ?_⟩ <;> simp [hn, hr]

/-- C6: for every handler, the VALIDATE phase mutates no runtime-model
state and allocates no resources: invoked with the VALIDATE event, each
handler returns success and leaves the global rip instance, all runtime
objects and all entry bindings exactly as they were (the whole state
record and the resource union are returned unchanged). -/
theorem C6_validate_is_pure :
    ∀ (s : St) (r : NbResource) (alloc : Option Nat) (nodeId : Nat) (p : Pfx)
      (v : Nat) (b : Bool) (name : String) (addr : Nat) (d : Direction)
      (t : Nat),
      ripd_instance_create alloc .validate s r = (.ok, s, r) ∧
      ripd_instance_delete .validate s = (.ok, s) ∧
      ripd_instance_allow_ecmp_modify .validate b s = (.ok, s) ∧
      ripd_instance_default_information_originate_modify .validate b s = (.ok, s) ∧
      ripd_instance_default_metric_modify .validate v s = (.ok, s) ∧
      ripd_instance_distance_default_modify .validate v s = (.ok, s) ∧
      ripd_instance_distance_source_create .validate nodeId p s = (.ok, s) ∧
      ripd_instance_distance_source_delete .validate nodeId s = some (.ok, s) ∧
      ripd_instance_distance_source_distance_modify .validate nodeId v s = some (.ok, s) ∧
      ripd_instance_distance_source_access_list_modify .validate nodeId name s = some (.ok, s) ∧
      ripd_instance_distance_source_access_list_delete .validate nodeId s = some (.ok, s) ∧
      ripd_instance_explicit_neighbor_create .validate addr s = (.ok, s) ∧
      ripd_instance_explicit_neighbor_delete .validate addr s = (.ok, s) ∧
      ripd_instance_network_create .validate p s = (.ok, s) ∧
      ripd_instance_network_delete .validate p s = (.ok, s) ∧
      ripd_instance_interface_create .validate name s = (.ok, s) ∧
      ripd_instance_interface_delete .validate name s = (.ok, s) ∧
      ripd_instance_offset_list_create .validate nodeId name s = (.ok, s) ∧
      ripd_instance_offset_list_delete .validate nodeId d s = some (.ok, s) ∧
      ripd_instance_offset_list_access_list_modify .validate nodeId d name s = some (.ok, s) ∧
      ripd_instance_offset_list_metric_modify .validate nodeId d v s = some (.ok, s) ∧
      ripd_instance_passive_default_modify .validate b s = (.ok, s) ∧
      ripd_instance_passive_interface_create .validate name s = (.ok, s) ∧
      ripd_instance_passive_interface_delete .validate name s = (.ok, s) ∧
      ripd_instance_non_passive_interface_create .validate name s = (.ok, s) ∧
      ripd_instance_non_passive_interface_delete .validate name s = (.ok, s) ∧
      ripd_instance_redistribute_create .validate s = (.ok, s) ∧
      ripd_instance_redistribute_delete .validate t s = (.ok, s) ∧
      ripd_instance_redistribute_route_map_modify .validate t name s = (.ok, s) ∧
      ripd_instance_redistribute_route_map_delete .validate t s = (.ok, s) ∧
      ripd_instance_redistribute_metric_modify .validate t v s = (.ok, s) ∧
      ripd_instance_redistribute_metric_delete .validate t s = (.ok, s) ∧
      ripd_instance_static_route_create .validate p s = (.ok, s) ∧
      ripd_instance_static_route_delete .validate p s = (.ok, s) ∧
      ripd_instance_timers_flush_interval_modify .validate v s = (.ok, s) ∧
      ripd_instance_timers_holddown_interval_modify .validate v s = (.ok, s) ∧
      ripd_instance_timers_update_interval_modify .validate v s = (.ok, s) ∧
      ripd_instance_version_receive_modify .validate s = (.ok, s) ∧
      ripd_instance_version_send_modify .validate s = (.ok, s) := by
  intro s r alloc nodeId p v b name addr d t
  exact ⟨rfl, rfl, rfl, rfl, rfl, rfl, rfl, rfl, rfl, rfl, rfl, rfl, rfl,
         rfl, rfl, rfl, rfl, rfl, rfl, rfl, rfl, rfl, rfl, rfl, rfl, rfl,
         rfl, rfl, rfl, rfl, rfl, rfl, rfl, rfl, rfl, rfl, rfl, rfl, rfl⟩

lemma get_entry_set_entry (n : Nat) (e : EntryPtr) (s : St) :
    yang_dnode_get_entry n (yang_dnode_set_entry n e s) = some e := by
  simp [yang_dnode_get_entry, yang_dnode_set_entry]

/-- C1 counterexample: the claim says every listed create handler (in
particular the redistribute one) establishes an entry binding via
`yang_dnode_set_entry` during its APPLY phase; but the redistribute
create handler is a bare `return NB_OK` - run at APPLY on the empty
state it leaves the binding registry empty, so no binding exists for the
created node. -/
theorem C1_counterexample :
    (ripd_instance_redistribute_create .apply St0).2.bindings = [] ∧
    yang_dnode_get_entry 5 (ripd_instance_redistribute_create .apply St0).2 = none := by
  exact ⟨rfl, rfl⟩

/-- C1 (amended): among the listed list-entry create handlers, exactly
the distance/source and offset-list create handlers establish an entry
binding via `yang_dnode_set_entry` during their APPLY phase (binding the
node to the fresh route node, respectively the fresh offset-list
record); the redistribute, network, interface, explicit-neighbor and
passive-interface create handlers establish no binding and leave the
binding registry unchanged. -/
theorem C1_amended_binding_discipline :
    ∀ (nodeId : Nat) (p : Pfx) (ifname : String) (addr : Nat) (s : St),
      yang_dnode_get_entry nodeId
          (ripd_instance_distance_source_create .apply nodeId p s).2 =
        some (.routeNode p) ∧
      yang_dnode_get_entry nodeId
          (ripd_instance_offset_list_create .apply nodeId ifname s).2 =
        some (.offsetObj s.offsetNext) ∧
      (ripd_instance_redistribute_create .apply s).2.bindings = s.bindings ∧
      (ripd_instance_network_create .apply p s).2.bindings = s.bindings ∧
      (ripd_instance_interface_create .apply ifname s).2.bindings = s.bindings ∧
      (ripd_instance_explicit_neighbor_create .apply addr s).2.bindings = s.bindings ∧
      (ripd_instance_passive_interface_create .apply ifname s).2.bindings = s.bindings := by
  intro nodeId p ifname addr s
  refine ⟨?_, ?_, rfl, ?_, ?_, ?_, ?_⟩
  · exact get_entry_set_entry nodeId (.routeNode p) _
  · exact get_entry_set_entry nodeId (.offsetObj s.offsetNext) _
  · exact bindings_network_add p s
  · exact bindings_if_add ifname s
  · exact bindings_neighbor_add (addr, 32) s
  · exact bindings_passive_set ifname s

lemma instance_prepare_success (fd : Nat) (s : St) (r : NbResource) :
    ripd_instance_create (some fd) .prepare s r =
      (.ok, { s with openFds := fd :: s.openFds }, { fd := fd }) := by
  have hnn : ¬ ((fd : Int) < 0) := not_lt.mpr (Int.natCast_nonneg fd)
  simp [ripd_instance_create, rip_create_socket, hnn]

/-- C2: the instance create handler acquires the socket in PREPARE and,
when the acquisition fails, returns `NB_ERR_RESOURCE` with the state and
the resource union untouched (no handle stored, no socket leaked, the
instance still absent); on success it stores the acquired descriptor in
`resource->fd`; on APPLY it consumes the stored descriptor by handing it
to `rip_create`, after which the instance exists and owns that socket. -/
theorem C2_instance_create_lifecycle :
    ∀ (s : St) (r : NbResource) (fd : Nat) (alloc : Option Nat),
      ripd_instance_create none .prepare s r = (.errResource, s, r) ∧
      ripd_instance_create (some fd) .prepare s r =
        (.ok, { s with openFds := fd :: s.openFds }, { fd := fd }) ∧
      ripd_instance_create alloc .apply s r = (.ok, rip_create r.fd s, r) ∧
      (ripd_instance_create alloc .apply s r).2.1.ripExists = true ∧
      (ripd_instance_create alloc .apply s r).2.1.ripSock = r.fd := by
  intro s r fd alloc
  exact ⟨rfl, instance_prepare_success fd s r, rfl, rfl, rfl⟩

/-- C3 concrete state for the abort-after-failed-prepare scenario: one
unrelated descriptor 7 is open, and the resource union happens to hold
the stale value 7. -/
def C3st : St := { St0 with openFds := [7] }

/-- C3 stale resource union for the scenario. -/
def C3res : NbResource := { fd := 7 }

/-- C3 counterexample: the claim says that for the instance create
handler, invoking the ABORT event after a failed PREPARE releases
nothing; but the handler's ABORT unconditionally closes the descriptor
value found in `resource->fd`, so after a PREPARE that failed (leaving
the union holding the stale value 7) the ABORT closes unrelated open
descriptor 7 - the open-descriptor set changes. -/
theorem C3_counterexample :
    (ripd_instance_create none .prepare C3st C3res).1 = .errResource ∧
    (ripd_instance_create none .abort
        (ripd_instance_create none .prepare C3st C3res).2.1
        (ripd_instance_create none .prepare C3st C3res).2.2).1 = .ok ∧
    (ripd_instance_create none .abort
        (ripd_instance_create none .prepare C3st C3res).2.1
        (ripd_instance_create none .prepare C3st C3res).2.2).2.1.openFds ≠
      C3st.openFds := by
  refine ⟨rfl, rfl, ?_⟩
  decide

/-- C3 (amended): every handler's ABORT phase returns `NB_OK` (handlers
other than the instance create one ignore ABORT entirely, returning the
state unchanged); the instance create handler's ABORT unconditionally
closes the descriptor value stored in `resource->fd`, which after its
own successful PREPARE releases exactly the acquired socket and restores
the original open-descriptor set - so its ABORT is a correct release
only when its PREPARE succeeded, not after a failed PREPARE. -/
theorem C3_amended_abort_behavior :
    ∀ (s : St) (r : NbResource) (alloc : Option Nat) (fd : Nat)
      (nodeId : Nat) (p : Pfx) (v : Nat) (b : Bool) (name : String)
      (addr : Nat) (d : Direction) (t : Nat),
      (ripd_instance_create alloc .abort s r).1 = .ok ∧
      (ripd_instance_create alloc .abort s r).2.1 =
        { s with openFds := s.openFds.erase r.fd } ∧
      (ripd_instance_create alloc .abort
          (ripd_instance_create (some fd) .prepare s r).2.1
          (ripd_instance_create (some fd) .prepare s r).2.2).2.1.openFds =
        s.openFds ∧
      ripd_instance_delete .abort s = (.ok, s) ∧
      ripd_instance_allow_ecmp_modify .abort b s = (.ok, s) ∧
      ripd_instance_default_information_originate_modify .abort b s = (.ok, s) ∧
      ripd_instance_default_metric_modify .abort v s = (.ok, s) ∧
      ripd_instance_distance_default_modify .abort v s = (.ok, s) ∧
      ripd_instance_distance_source_create .abort nodeId p s = (.ok, s) ∧
      ripd_instance_distance_source_delete .abort nodeId s = some (.ok, s) ∧
      ripd_instance_distance_source_distance_modify .abort nodeId v s = some (.ok, s) ∧
      ripd_instance_distance_source_access_list_modify .abort nodeId name s = some (.ok, s) ∧
      ripd_instance_distance_source_access_list_delete .abort nodeId s = some (.ok, s) ∧
      ripd_instance_explicit_neighbor_create .abort addr s = (.ok, s) ∧
      ripd_instance_explicit_neighbor_delete .abort addr s = (.ok, s) ∧
      ripd_instance_network_create .abort p s = (.ok, s) ∧
      ripd_instance_network_delete .abort p s = (.ok, s) ∧
      ripd_instance_interface_create .abort name s = (.ok, s) ∧
      ripd_instance_interface_delete .abort name s = (.ok, s) ∧
      ripd_instance_offset_list_create .abort nodeId name s = (.ok, s) ∧
      ripd_instance_offset_list_delete .abort nodeId d s = some (.ok, s) ∧
      ripd_instance_offset_list_access_list_modify .abort nodeId d name s = some (.ok, s) ∧
      ripd_instance_offset_list_metric_modify .abort nodeId d v s = some (.ok, s) ∧
      ripd_instance_passive_default_modify .abort b s = (.ok, s) ∧
      ripd_instance_passive_interface_create .abort name s = (.ok, s) ∧
      ripd_instance_passive_interface_delete .abort name s = (.ok, s) ∧
      ripd_instance_non_passive_interface_create .abort name s = (.ok, s) ∧
      ripd_instance_non_passive_interface_delete .abort name s = (.ok, s) ∧
      ripd_instance_redistribute_create .abort s = (.ok, s) ∧
      ripd_instance_redistribute_delete .abort t s = (.ok, s) ∧
      ripd_instance_redistribute_route_map_modify .abort t name s = (.ok, s) ∧
      ripd_instance_redistribute_route_map_delete .abort t s = (.ok, s) ∧
      ripd_instance_redistribute_metric_modify .abort t v s = (.ok, s) ∧
      ripd_instance_redistribute_metric_delete .abort t s = (.ok, s) ∧
      ripd_instance_static_route_create .abort p s = (.ok, s) ∧
      ripd_instance_static_route_delete .abort p s = (.ok, s) ∧
      ripd_instance_timers_flush_interval_modify .abort v s = (.ok, s) ∧
      ripd_instance_timers_holddown_interval_modify .abort v s = (.ok, s) ∧
      ripd_instance_timers_update_interval_modify .abort v s = (.ok, s) ∧
      ripd_instance_version_receive_modify .abort s = (.ok, s) ∧
      ripd_instance_version_send_modify .abort s = (.ok, s) := by
  intro s r alloc fd nodeId p v b name addr d t
  refine ⟨rfl, rfl, ?_, rfl, rfl, rfl, rfl, rfl, rfl, rfl, rfl, rfl, rfl,
          rfl, rfl, rfl, rfl, rfl, rfl, rfl, rfl, rfl, rfl, rfl, rfl, rfl,
          rfl, rfl, rfl, rfl, rfl, rfl, rfl, rfl, rfl, rfl, rfl, rfl, rfl,
          rfl, rfl⟩
  rw [instance_prepare_success fd s r]
  show (({ s with openFds := fd :: s.openFds } : St).openFds).erase fd = s.openFds
  simp

lemma list_set_of_get? {α : Type} :
    ∀ (l : List α) (n : Nat) (a : α), l.get? n = some a → l.set n a = l := by
  intro l
  induction l with
  | nil => intro n a h; cases h
  | cons x l ih =>
    intro n a h
    cases n with
    | zero =>
      simp only [List.get?] at h
      cases h
      rfl
    | succ m =>
      simp only [List.get?] at h
      simp [List.set, ih m a h]

/-- C7: the apply_finish callbacks are idempotent - re-running the timers
apply_finish or a redistribute entry's apply_finish is the same as
running it once, and when none of the watched fields changed (the
derived timer interval already matches the configured update interval,
respectively the derived redistribution state already matches the
configured one) running it is the same as not running it at all. -/
theorem C7_apply_finish_idempotent :
    ∀ (s : St) (t : Nat) (d : Bool),
      ripd_instance_timers_apply_finish (ripd_instance_timers_apply_finish s) =
        ripd_instance_timers_apply_finish s ∧
      (s.updateTimerInterval = some s.update_time →
        ripd_instance_timers_apply_finish s = s) ∧
      ripd_instance_redistribute_apply_finish t d
          (ripd_instance_redistribute_apply_finish t d s) =
        ripd_instance_redistribute_apply_finish t d s ∧
      (s.zebraRedist.get? t = some d →
        ripd_instance_redistribute_apply_finish t d s = s) := by
  intro s t d
  refine ⟨rfl, ?_, ?_, ?_⟩
  · intro h
    show { s with updateTimerInterval := some s.update_time } = s
    rw [← h]
  · show { s with zebraRedist := (s.zebraRedist.set t d).set t d } = _
    rw [List.set_set]
    rfl
  · intro h
    show { s with zebraRedist := s.zebraRedist.set t d } = s
    rw [list_set_of_get? s.zebraRedist t d h]

/-- C7 witness state: the derived timer interval matches the configured
update interval and the derived redistribution state of protocol 0
matches the configured one. -/
def C7st : St := { St0 with updateTimerInterval := some 30, zebraRedist := [true] }

/-- C7 witness: on the concrete state `C7st`, invoking either
apply_finish callback is observably a no-op. -/
theorem C7_apply_finish_idempotent_witness :
    ripd_instance_timers_apply_finish C7st = C7st ∧
    ripd_instance_redistribute_apply_finish 0 true C7st = C7st :=
  ⟨(C7_apply_finish_idempotent C7st 0 true).2.1 (by decide),
   (C7_apply_finish_idempotent C7st 0 true).2.2.2 (by decide)⟩

lemma find?_map_set {α : Type} (n : Nat) (o : α) :
    ∀ l : List (Nat × α),
      ((l.map (fun e => if e.1 == n then (n, o) else e)).find?
          (fun e => e.1 == n)) =
        (l.find? (fun e => e.1 == n)).map (fun _ => (n, o)) := by
  intro l
  induction l with
  | nil => rfl
  | cons a l ih =>
    by_cases h : a.1 = n
    · have hb : (a.1 == n) = true := beq_iff_eq.mpr h
      simp only [List.map_cons, hb, if_true, List.find?_cons, beq_self_eq_true]
      rfl
    · have hb : (a.1 == n) = false := beq_eq_false_iff_ne.mpr h
      simp only [List.map_cons, hb, Bool.false_eq_true, if_false,
                 List.find?_cons, ih]

lemma lookupOffset_storeOffset (oid : Nat) (o : RipOffsetList) (s : St) :
    lookupOffset oid (storeOffset oid o s) =
      (lookupOffset oid s).map (fun _ => o) := by
  show ((s.offsetHeap.map fun e => if e.1 == oid then (oid, o) else e).find?
          (fun e => e.1 == oid)).map (fun b => b.2) =
       ((s.offsetHeap.find? (fun e => e.1 == oid)).map
          (fun b => b.2)).map (fun _ => o)
  rw [find?_map_set]
  cases s.offsetHeap.find? (fun e => e.1 == oid) <;> rfl

lemma lookupOffset_del (oid : Nat) (s : St) :
    lookupOffset oid (offset_list_del oid s) = none := by
  show ((s.offsetHeap.filter fun e => e.1 != oid).find?
          (fun e => e.1 == oid)).map (fun b => b.2) = none
  rw [find?_filter_ne_none]
  rfl

/-- C4: deleting one direction's sub-state of an offset-list entry frees
that direction's access-list name, and the shared offset-list record is
freed by `offset_list_del` exactly when, after the deletion, neither
direction's access-list name remains - equivalently, when the other
direction's name (which the handler does not touch) is absent; if the
other direction's name is still set, the shared record stays alive. -/
theorem C4_offset_list_shared_record_cleanup :
    ∀ (nodeId oid : Nat) (d : Direction) (off : RipOffsetList) (s : St),
      yang_dnode_get_entry nodeId s = some (.offsetObj oid) →
      lookupOffset oid s = some off →
      ∃ s2, ripd_instance_offset_list_delete .apply nodeId d s = some (.ok, s2) ∧
        (∀ i, (off.direct d).alist_name = some i → s2.freeLog = i :: s.freeLog) ∧
        (lookupOffset oid s2 = none ↔ (off.direct d.other).alist_name = none) := by
  intro nodeId oid d off s h1 h2
  unfold ripd_instance_offset_list_delete
  rw [h1]
  simp only [bne_self_eq_false, Bool.false_eq_true, if_false, h2]
  cases d with
  | din =>
    simp only [RipOffsetList.direct, RipOffsetList.setDirect, Direction.other]
    cases hin : off.directIn.alist_name with
    | some i =>
      simp only [hin]
      cases hout : off.directOut.alist_name with
      | some j =>
        try simp only [hin, hout]
        rw [if_neg (by simp)]
        refine ⟨_, rfl, ?_, ?_⟩
        · intro k hk
          injection hk with hk
          subst hk
          rfl
        · rw [lookupOffset_storeOffset]
          rw [show lookupOffset oid (freeStr i s) = lookupOffset oid s from rfl]
          rw [h2]
          simp
      | none =>
        try simp only [hin, hout]
        rw [if_pos (by simp)]
        refine ⟨_, rfl, ?_, ?_⟩
        · intro k hk
          injection hk with hk
          subst hk
          rfl
        · rw [lookupOffset_del]
          simp
    | none =>
      simp only [hin]
      cases hout : off.directOut.alist_name with
      | some j =>
        try simp only [hin, hout]
        rw [if_neg (by simp)]
        refine ⟨_, rfl, ?_, ?_⟩
        · intro k hk
          exact Option.noConfusion hk
        · rw [h2]
          simp
      | none =>
        try simp only [hin, hout]
        rw [if_pos (by simp)]
        refine ⟨_, rfl, ?_, ?_⟩
        · intro k hk
          exact Option.noConfusion hk
        · rw [lookupOffset_del]
          simp
  | dout =>
    simp only [RipOffsetList.direct, RipOffsetList.setDirect, Direction.other]
    cases hout : off.directOut.alist_name with
    | some i =>
      simp only [hout]
      cases hin : off.directIn.alist_name with
      | some j =>
        try simp only [hin, hout]
        rw [if_neg (by simp)]
        refine ⟨_, rfl, ?_, ?_⟩
        · intro k hk
          injection hk with hk
          subst hk
          rfl
        · rw [lookupOffset_storeOffset]
          rw [show lookupOffset oid (freeStr i s) = lookupOffset oid s from rfl]
          rw [h2]
          simp
      | none =>
        try simp only [hin, hout]
        rw [if_pos (by simp)]
        refine ⟨_, rfl, ?_, ?_⟩
        · intro k hk
          injection hk with hk
          subst hk
          rfl
        · rw [lookupOffset_del]
          simp
    | none =>
      simp only [hout]
      cases hin : off.directIn.alist_name with
      | some j =>
        try simp only [hin, hout]
        rw [if_neg (by simp)]
        refine ⟨_, rfl, ?_, ?_⟩
        · intro k hk
          exact Option.noConfusion hk
        · rw [h2]
          simp
      | none =>
        try simp only [hin, hout]
        rw [if_pos (by simp)]
        refine ⟨_, rfl, ?_, ?_⟩
        · intro k hk
          exact Option.noConfusion hk
        · rw [lookupOffset_del]
          simp

/-- C4 witness offset-list record: both directions carry an access-list
name (allocation ids 5 and 6). -/
def C4off : RipOffsetList :=
  { ifname := "eth0"
  , directIn := { alist_name := some 5, metric := 0 }
  , directOut := { alist_name := some 6, metric := 0 } }

/-- C4 witness state: node 1 is bound to offset-list record 0. -/
def C4st : St := { St0 with bindings := [(1, .offsetObj 0)], offsetHeap := [(0, C4off)] }

/-- C4 witness: deleting the in-direction of the concrete bound
offset-list entry frees the in-direction name while the shared record
stays alive because the out-direction name is still set. -/
theorem C4_offset_list_shared_record_cleanup_witness :
    ∃ s2, ripd_instance_offset_list_delete .apply 1 .din C4st = some (.ok, s2) ∧
      (∀ i, (C4off.direct .din).alist_name = some i → s2.freeLog = i :: C4st.freeLog) ∧
      (lookupOffset 0 s2 = none ↔ (C4off.direct Direction.din.other).alist_name = none) :=
  C4_offset_list_shared_record_cleanup 1 0 .din C4off C4st rfl rfl

lemma route_node_get_absent (p : Pfx) (l : List RNode)
    (h : ∀ rn ∈ l, rn.pfx ≠ p) :
    route_node_get p l = { pfx := p, info := none, locks := 1 } :: l := by
  unfold route_node_get
  rw [if_neg]
  simp only [List.any_eq_true, not_exists]
  intro rn
  simp only [not_and]
  intro hm
  exact fun hb => h rn hm (beq_iff_eq.mp hb)

lemma setInfo_cons_eq (p : Pfx) (i j : Option RipDistance) (k : Nat)
    (l : List RNode) :
    setInfo p i ({ pfx := p, info := j, locks := k } :: l) =
      { pfx := p, info := i, locks := k } :: setInfo p i l := by
  simp [setInfo]

lemma setInfo_skip (p : Pfx) (i : Option RipDistance) :
    ∀ l : List RNode, (∀ rn ∈ l, rn.pfx ≠ p) → setInfo p i l = l := by
  intro l
  induction l with
  | nil => intro h; rfl
  | cons a l ih =>
    intro h
    have ha : (a.pfx == p) = false :=
      beq_eq_false_iff_ne.mpr (h a (List.mem_cons_self a l))
    have ht := ih (fun rn hm => h rn (List.mem_cons_of_mem a hm))
    show (if (a.pfx == p) = true then { a with info := i } else a) :: setInfo p i l
      = a :: l
    rw [ha, ht]
    simp

lemma unlock_cons_eq (p : Pfx) (j : Option RipDistance) (l : List RNode) :
    route_unlock_node p ({ pfx := p, info := j, locks := 1 } :: l) =
      route_unlock_node p l := by
  simp [route_unlock_node]

lemma unlock_skip (p : Pfx) :
    ∀ l : List RNode, (∀ rn ∈ l, rn.pfx ≠ p) → route_unlock_node p l = l := by
  intro l
  induction l with
  | nil => intro h; rfl
  | cons a l ih =>
    intro h
    have hne : a.pfx ≠ p := h a (List.mem_cons_self a l)
    have ht := ih (fun rn hm => h rn (List.mem_cons_of_mem a hm))
    unfold route_unlock_node at ht ⊢
    simp at ht
    simp [List.filterMap_cons, hne, ht]

lemma findNode_cons_eq (p : Pfx) (i : Option RipDistance) (k : Nat)
    (l : List RNode) :
    findNode p ({ pfx := p, info := i, locks := k } :: l) =
      some { pfx := p, info := i, locks := k } := by
  simp [findNode]

lemma get_entry_of_bindings_head (n : Nat) (e : EntryPtr)
    (rest : List (Nat × EntryPtr)) (s : St) (h : s.bindings = (n, e) :: rest) :
    yang_dnode_get_entry n s = some e := by
  simp [yang_dnode_get_entry, h]

lemma get_entry_destroy (n : Nat) (s : St) :
    yang_dnode_get_entry n (nb_node_destroy n s) = none := by
  show ((s.bindings.filter fun b => b.1 != n).find?
          (fun b => b.1 == n)).map (fun b => b.2) = none
  rw [find?_filter_ne_none]
  rfl

/-- C5: the create-modify-delete scenario of a distance-source list
entry on a table that does not yet contain the key prefix: after the
create handler's APPLY an entry binding from the node to its route node
exists; the access-list modify resolves that same binding (the binding
registry still maps the node to the route node of the key prefix) and
installs the freshly allocated access-list string on the bound record
without freeing anything (the previous name was NULL); the delete
handler then frees the access-list string - exactly once over the whole
sequence - and frees the route node, and once the coordinator destroys
the deleted node no binding remains for it. -/
theorem C5_distance_source_create_modify_delete :
    ∀ (nodeId : Nat) (p : Pfx) (acl : String) (st : St),
      (∀ rn ∈ st.distTable, rn.pfx ≠ p) →
      st.allocNext ∉ st.freeLog →
      ∃ s1, (ripd_instance_distance_source_create .apply nodeId p st).2 = s1 ∧
        yang_dnode_get_entry nodeId s1 = some (.routeNode p) ∧
        ∃ s2, ripd_instance_distance_source_access_list_modify .apply nodeId acl s1
                = some (.ok, s2) ∧
          yang_dnode_get_entry nodeId s2 = some (.routeNode p) ∧
          findNode p s2.distTable =
            some { pfx := p,
                   info := some { distance := 0, access_list := some st.allocNext },
                   locks := 1 } ∧
          s2.freeLog = st.freeLog ∧
          ∃ s3, ripd_instance_distance_source_delete .apply nodeId s2 = some (.ok, s3) ∧
            s3.freeLog.count st.allocNext = 1 ∧
            (∀ rn ∈ s3.distTable, rn.pfx ≠ p) ∧
            yang_dnode_get_entry nodeId (nb_node_destroy nodeId s3) = none := by
  intro nodeId p acl st h1 h2
  have e1 : (ripd_instance_distance_source_create .apply nodeId p st).2 =
      { st with
        distTable :=
          { pfx := p, info := some rip_distance_new, locks := 1 } :: st.distTable
      , bindings :=
          (nodeId, .routeNode p) :: st.bindings.filter (fun b => b.1 != nodeId) } := by
    unfold ripd_instance_distance_source_create
    simp only [bne_self_eq_false, Bool.false_eq_true, if_false]
    rw [route_node_get_absent p st.distTable h1, setInfo_cons_eq,
        setInfo_skip p _ st.distTable h1]
    rfl
  refine ⟨_, e1, get_entry_of_bindings_head nodeId (.routeNode p) _ _ rfl, ?_⟩
  have ge1 : yang_dnode_get_entry nodeId
      ({ st with
         distTable :=
           { pfx := p, info := some rip_distance_new, locks := 1 } :: st.distTable
       , bindings :=
           (nodeId, .routeNode p) :: st.bindings.filter (fun b => b.1 != nodeId) } : St) =
      some (.routeNode p) :=
    get_entry_of_bindings_head nodeId (.routeNode p) _ _ rfl
  have e2 : ripd_instance_distance_source_access_list_modify .apply nodeId acl
      { st with
        distTable :=
          { pfx := p, info := some rip_distance_new, locks := 1 } :: st.distTable
      , bindings :=
          (nodeId, .routeNode p) :: st.bindings.filter (fun b => b.1 != nodeId) } =
      some (.ok,
        { st with
          distTable :=
            { pfx := p,
              info := some { distance := 0, access_list := some st.allocNext },
              locks := 1 } :: st.distTable
        , bindings :=
            (nodeId, .routeNode p) :: st.bindings.filter (fun b => b.1 != nodeId)
        , allocNext := st.allocNext + 1 }) := by
    unfold ripd_instance_distance_source_access_list_modify
    simp only [bne_self_eq_false, Bool.false_eq_true, if_false, ge1,
               findNode_cons_eq]
    simp only [rip_distance_new, strdupAlloc, freeStr]
    rw [setInfo_cons_eq, setInfo_skip p _ st.distTable h1]
  refine ⟨_, e2, get_entry_of_bindings_head nodeId (.routeNode p) _ _ rfl,
          findNode_cons_eq p _ 1 st.distTable, rfl, ?_⟩
  have ge2 : yang_dnode_get_entry nodeId
      ({ st with
         distTable :=
           { pfx := p,
             info := some { distance := 0, access_list := some st.allocNext },
             locks := 1 } :: st.distTable
       , bindings :=
           (nodeId, .routeNode p) :: st.bindings.filter (fun b => b.1 != nodeId)
       , allocNext := st.allocNext + 1 } : St) =
      some (.routeNode p) :=
    get_entry_of_bindings_head nodeId (.routeNode p) _ _ rfl
  have e3 : ripd_instance_distance_source_delete .apply nodeId
      { st with
        distTable :=
          { pfx := p,
            info := some { distance := 0, access_list := some st.allocNext },
            locks := 1 } :: st.distTable
      , bindings :=
          (nodeId, .routeNode p) :: st.bindings.filter (fun b => b.1 != nodeId)
      , allocNext := st.allocNext + 1 } =
      some (.ok,
        { st with
          bindings :=
            (nodeId, .routeNode p) :: st.bindings.filter (fun b => b.1 != nodeId)
        , allocNext := st.allocNext + 1
        , freeLog := st.allocNext :: st.freeLog }) := by
    unfold ripd_instance_distance_source_delete
    simp only [bne_self_eq_false, Bool.false_eq_true, if_false, ge2,
               findNode_cons_eq]
    simp only [strdupAlloc, freeStr]
    rw [setInfo_cons_eq, setInfo_skip p _ st.distTable h1,
        unlock_cons_eq, unlock_skip p st.distTable h1]
  refine ⟨_, e3, ?_, h1, get_entry_destroy nodeId _⟩
  show (st.allocNext :: st.freeLog).count st.allocNext = 1
  rw [List.count_cons_self]
  rw [List.count_eq_zero.mpr h2]

/-- C5 witness: the create-modify-delete scenario run concretely from
the empty state on node 1 with prefix 10.0.0.0/8. -/
theorem C5_distance_source_create_modify_delete_witness :
    ∃ s1, (ripd_instance_distance_source_create .apply 1 (10, 8) St0).2 = s1 ∧
      yang_dnode_get_entry 1 s1 = some (.routeNode (10, 8)) ∧
      ∃ s2, ripd_instance_distance_source_access_list_modify .apply 1 "acl1" s1
              = some (.ok, s2) ∧
        yang_dnode_get_entry 1 s2 = some (.routeNode (10, 8)) ∧
        findNode (10, 8) s2.distTable =
          some { pfx := (10, 8),
                 info := some { distance := 0, access_list := some St0.allocNext },
                 locks := 1 } ∧
        s2.freeLog = St0.freeLog ∧
        ∃ s3, ripd_instance_distance_source_delete .apply 1 s2 = some (.ok, s3) ∧
          s3.freeLog.count St0.allocNext = 1 ∧
          (∀ rn ∈ s3.distTable, rn.pfx ≠ (10, 8)) ∧
          yang_dnode_get_entry 1 (nb_node_destroy 1 s3) = none :=
  C5_distance_source_create_modify_delete 1 (10, 8) "acl1" St0
    (by simp [St0]) (by simp [St0])

end RipNB
